import Mathlib

/-!
Shallow embedding of nagare-sessions-memcache
(src/nagare/sessions/memcached_sessions.py, 2023 variant).

The memcached client (an external collaborator) is modelled from the
contract in the specification: a flat string-keyed map with multi-key
get/set, a single-key delete, an atomic increment and a full flush.
Backend acknowledgement of a mutation is an input of the model (the
booleans named failSet / failDel), since whether a remote write is
acknowledged is decided by the environment, not by this code.
TTL expiry and the distributed lock are outside the model: no claim
mentions them beyond forwarding the parameters.
-/

/-- Values held in the cache: the per-session state counter (an int in
the source), the session tuple (version stamp, secure token, session
data: the source stores the Python triple
(self.version, secure_id, session_data)), and opaque state blobs. -/
inductive Value where
  | counter : Nat → Value
  | sess : String → String → Option String → Value
  | blob : String → Value
  deriving DecidableEq

/-- The memcached keyspace: flat string keys to values. -/
abbrev Cache := String → Option Value

/-- The empty cache. -/
def emptyCache : Cache := fun _ => none

/-- Single-key write (memcached set). -/
def setC (c : Cache) (k : String) (v : Value) : Cache :=
  fun q => if q = k then some v else c q

/-- Single-key removal (memcached delete, effect on the keyspace). -/
def delC (c : Cache) (k : String) : Cache :=
  fun q => if q = k then none else c q

/-- KEY_PREFIX applied to a session id: the source formats
the pattern nagare_%d_ with the integer session id. -/
def keyPre (session_id : Nat) : String :=
  "nagare_" ++ Nat.repr session_id ++ "_"

/-- Zero padding of a state id to width at least 5, as the source
formats state ids with %05d. -/
def zpad5 (n : Nat) : String :=
  String.mk (List.replicate (5 - (Nat.repr n).length) '0') ++ Nat.repr n

/-- Key of the per-session state counter. -/
def counterKey (session_id : Nat) : String := keyPre session_id ++ "state"

/-- Key of the session tuple. -/
def sessKey (session_id : Nat) : String := keyPre session_id ++ "sess"

/-- Key of one state snapshot. -/
def stateKey (session_id state_id : Nat) : String :=
  keyPre session_id ++ zpad5 state_id

/-- Client get_multi: returns the association of requested key suffixes
to values, keeping only the keys actually present (missing keys never
raise). -/
def get_multi (c : Cache) (keys : List String) (pre : String) :
    List (String × Value) :=
  keys.filterMap fun k => (c (pre ++ k)).map fun v => (k, v)

/-- Client set_multi: on acknowledged success (failSet = false) every
entry is written under the prefixed key and the falsy no-failures value
is returned; an unacknowledged write (failSet = true) returns a truthy
failure and is modelled as not applied.  The ttl and noreply parameters
are forwarded by the source to the client and do not change the
keyspace semantics modelled here. -/
def set_multi (c : Cache) (entries : List (String × Value)) (ttl : Nat)
    (pre : String) (noreply : Bool) (failSet : Bool) : Bool × Cache :=
  if failSet then (true, c)
  else (false, entries.foldl (fun a kv => setC a (pre ++ kv.1) kv.2) c)

/-- Client atomic increment: succeeds exactly when the key currently
holds a numeric counter, returning the new value; otherwise (key
missing, i.e. session gone) it returns the null failure and leaves the
cache unchanged. -/
def mc_incr (c : Cache) (k : String) (noreply : Bool) : Option Nat × Cache :=
  match c k with
  | some (Value.counter n) => (some (n + 1), setC c k (Value.counter (n + 1)))
  | _ => (none, c)

/-- Client delete of one key: on acknowledged success the key is
removed and the falsy no-failure value returned; an unacknowledged
delete returns truthy failure, modelled as not applied. -/
def mc_delete (c : Cache) (k : String) (noreply : Bool) (failDel : Bool) :
    Bool × Cache :=
  if failDel then (true, c) else (false, delC c k)

/-- Errors surfaced by the store.  typeError models the Python crash on
unpacking a session tuple of the wrong shape (never reached on caches
written by this store). -/
inductive Err where
  | storageError : Err
  | expirationError : Err
  | typeError : Err
  deriving DecidableEq

/-- The Sessions manager state: configured ttl, noreply flag, the
normalized reset_on_reload policy, the current version stamp
self.version and the configured seed self._version. -/
structure Sessions where
  ttl : Nat
  noreply : Bool
  reset_on_reload : String
  version : String
  seedVersion : String
  deriving DecidableEq

/-- generate_version: the decimal print of a freshly generated unique
id (str(self.generate_id()); generate_id lives in the base class). -/
def generate_version (genId : Nat) : String := Nat.repr genId

/-- handle_reload: under the invalidate policy, recompute the version
stamp as the first 16 characters of the md5 hexdigest of the configured
seed, or of a fresh unique id when the seed is the empty string; under
the flush policy, delete every entry of the cache.  The md5 hexdigest
function (hashlib) and the fresh id are inputs of the model. -/
def handle_reload (md5hex : String → String) (genId : Nat) (s : Sessions)
    (c : Cache) : Sessions × Cache :=
  let s2 :=
    if s.reset_on_reload = "invalidate" then
      { s with version :=
          (md5hex (if s.seedVersion ≠ "" then s.seedVersion
                   else generate_version genId)).take 16 }
    else s
  let c2 := if s2.reset_on_reload = "flush" then emptyCache else c
  (s2, c2)

/-- Construction: reset_on_reload = on is identified with invalidate,
self.version and self._version are both set to the configured version
string, then handle_reload runs once. -/
def initSessions (md5hex : String → String) (genId : Nat)
    (reset_on_reload version : String) (ttl : Nat) (noreply : Bool)
    (c : Cache) : Sessions × Cache :=
  handle_reload md5hex genId
    { ttl := ttl, noreply := noreply,
      reset_on_reload :=
        if reset_on_reload = "on" then "invalidate" else reset_on_reload,
      version := version, seedVersion := version } c

/-- The _create operation: one multi-key write of the counter at 0, the
session tuple (version, secure_id, None) and the empty snapshot 00000;
raises StorageError on an unacknowledged write, else returns
(session_id, 0, secure_id).  The session lock also returned by the
source is outside the model. -/
def _create (s : Sessions) (session_id : Nat) (secure_id : String)
    (failSet : Bool) (c : Cache) :
    Except Err (Nat × Nat × String) × Cache :=
  let r := set_multi c
    [("state", Value.counter 0),
     ("sess", Value.sess s.version secure_id none),
     ("00000", Value.blob "")]
    s.ttl (keyPre session_id) s.noreply failSet
  if r.1 then (Except.error Err.storageError, r.2)
  else (Except.ok (session_id, 0, secure_id), r.2)

/-- The delete operation: one client delete of the session tuple key;
raises StorageError when the delete reports failure. -/
def delete (s : Sessions) (session_id : Nat) (failDel : Bool) (c : Cache) :
    Except Err Unit × Cache :=
  let r := mc_delete c (keyPre session_id ++ "sess") s.noreply failDel
  if r.1 then (Except.error Err.storageError, r.2)
  else (Except.ok (), r.2)

/-- The _fetch operation: one multi-key read of the counter, the
session tuple and the requested snapshot; ExpirationError when fewer
than the three keys come back; the session tuple is unpacked and
ExpirationError raised when its version stamp differs from the current
one; otherwise returns (latest counter value, secure token, session
data, state data).  It performs no write: the cache is returned as it
came. -/
def _fetch (s : Sessions) (session_id state_id : Nat) (c : Cache) :
    Except Err (Value × String × Option String × Value) × Cache :=
  let key := zpad5 state_id
  let session := get_multi c ["state", "sess", key] (keyPre session_id)
  if session.length ≠ 3 then (Except.error Err.expirationError, c)
  else
    match List.lookup "state" session, List.lookup "sess" session,
          List.lookup key session with
    | some last_state_id, some (Value.sess version secure_token session_data),
      some state_data =>
        if version ≠ s.version then (Except.error Err.expirationError, c)
        else (Except.ok (last_state_id, secure_token, session_data, state_data), c)
    | _, _, _ => (Except.error Err.typeError, c)

/-- Second statement of _store: the multi-key write of the session
tuple (stamped with the current version) and of the snapshot keyed by
the passed state_id; StorageError on an unacknowledged write. -/
def store_write (s : Sessions) (session_id state_id : Nat)
    (secure_token : String) (session_data : Option String)
    (state_data : String) (failSet : Bool) (c : Cache) :
    Except Err Unit × Cache :=
  let r := set_multi c
    [("sess", Value.sess s.version secure_token session_data),
     (zpad5 state_id, Value.blob state_data)]
    s.ttl (keyPre session_id) s.noreply failSet
  if r.1 then (Except.error Err.storageError, r.2)
  else (Except.ok (), r.2)

/-- The _store operation: when use_same_state is false the client
atomic increment of the counter key runs first, and StorageError is
raised when it returns the null failure and noreply is false (the
source condition: not use_same_state and incr(...) is None and not
self.noreply); then the multi-key data write runs. -/
def _store (s : Sessions) (session_id state_id : Nat)
    (secure_token : String) (use_same_state : Bool)
    (session_data : Option String) (state_data : String)
    (failSet : Bool) (c : Cache) : Except Err Unit × Cache :=
  if use_same_state = false then
    let ri := mc_incr c (keyPre session_id ++ "state") s.noreply
    if ri.1 = none ∧ s.noreply = false then (Except.error Err.storageError, ri.2)
    else store_write s session_id state_id secure_token session_data
           state_data failSet ri.2
  else store_write s session_id state_id secure_token session_data
         state_data failSet c

/-- A concrete manager configuration used by concrete instances: the
off policy, acknowledged writes, empty version stamp. -/
def sampleSessions : Sessions :=
  { ttl := 0, noreply := false, reset_on_reload := "off",
    version := "", seedVersion := "" }

/-- The sample configuration with fire-and-forget writes. -/
def noreplySessions : Sessions :=
  { ttl := 0, noreply := true, reset_on_reload := "off",
    version := "", seedVersion := "" }

/-- A concrete cache holding session 1 with its counter at 5 and a
stamped session tuple. -/
def cacheCounter5 : Cache :=
  setC (setC emptyCache (counterKey 1) (Value.counter 5))
    (sessKey 1) (Value.sess "" "tok" none)

/-- A concrete cache holding only the counter of session 1, at 0. -/
def cacheCounter0 : Cache :=
  setC emptyCache (counterKey 1) (Value.counter 0)

/-- A concrete manager configuration with the invalidate policy, no
configured seed and the version stamp of an earlier generation. -/
def invalidateSessions : Sessions :=
  { ttl := 0, noreply := false, reset_on_reload := "invalidate",
    version := "old", seedVersion := "" }

/-- A concrete cache holding all three keys of session 1, the session
tuple stamped with the earlier generation stamp old. -/
def cacheOldStamp : Cache :=
  setC (setC (setC emptyCache (counterKey 1) (Value.counter 0))
    (sessKey 1) (Value.sess "old" "tok" none))
    (stateKey 1 0) (Value.blob "")

/-! Decimal string facts: the decimal print of a natural number is
injective, consists of digit characters only and therefore contains no
underscore; the zero-padded state id keeps those properties.  These
facts make the flat key namespace collision free. -/

/-- Numeric value of a digit character. -/
def digitVal (c : Char) : Nat := c.toNat - 48

/-- Value of a big-endian list of digit characters. -/
def valOfDigits (l : List Char) : Nat :=
  l.foldl (fun a c => a * 10 + digitVal c) 0

theorem digitChar_isDigit (m : Nat) (h : m < 10) :
    (Nat.digitChar m).isDigit = true := by
  interval_cases m <;> decide

theorem digitVal_digitChar (m : Nat) (h : m < 10) :
    digitVal (Nat.digitChar m) = m := by
  interval_cases m <;> decide

theorem toDigitsCore_shift (fuel : Nat) : ∀ (n : Nat) (acc : List Char),
    Nat.toDigitsCore 10 fuel n acc = Nat.toDigitsCore 10 fuel n [] ++ acc := by
  induction fuel with
  | zero => intro n acc; simp [Nat.toDigitsCore]
  | succ f ih =>
    intro n acc
    simp only [Nat.toDigitsCore]
    by_cases h : n / 10 = 0
    · simp [h]
    · simp only [if_neg h]
      rw [ih (n / 10) (Nat.digitChar (n % 10) :: acc),
          ih (n / 10) [Nat.digitChar (n % 10)]]
      simp

theorem toDigitsCore_digits (fuel : Nat) : ∀ (n : Nat) (acc : List Char),
    (∀ c ∈ acc, c.isDigit = true) →
    ∀ c ∈ Nat.toDigitsCore 10 fuel n acc, c.isDigit = true := by
  induction fuel with
  | zero => intro n acc hacc; simpa [Nat.toDigitsCore] using hacc
  | succ f ih =>
    intro n acc hacc
    simp only [Nat.toDigitsCore]
    have hd : ∀ c ∈ Nat.digitChar (n % 10) :: acc, c.isDigit = true := by
      intro c hc
      rcases List.mem_cons.mp hc with h | h
      · subst h; exact digitChar_isDigit _ (Nat.mod_lt _ (by norm_num))
      · exact hacc c h
    by_cases h : n / 10 = 0
    · simpa [h] using hd
    · simp only [if_neg h]
      exact ih (n / 10) _ hd

theorem valOfDigits_append_singleton (l : List Char) (c : Char) :
    valOfDigits (l ++ [c]) = valOfDigits l * 10 + digitVal c := by
  simp [valOfDigits, List.foldl_append]

theorem toDigitsCore_val (fuel : Nat) : ∀ n, n < fuel →
    valOfDigits (Nat.toDigitsCore 10 fuel n []) = n := by
  induction fuel with
  | zero => intro n hn; omega
  | succ f ih =>
    intro n hn
    simp only [Nat.toDigitsCore]
    by_cases h : n / 10 = 0
    · have hlt : n < 10 := by omega
      have hm : n % 10 = n := Nat.mod_eq_of_lt hlt
      simp [h, valOfDigits, hm, digitVal_digitChar n hlt]
    · have h10 : 10 ≤ n := by
        by_contra hc
        exact h (Nat.div_eq_of_lt (by omega))
      have hrec : n / 10 < f := by
        have h1 : n / 10 < n := Nat.div_lt_self (by omega) (by norm_num)
        omega
      rw [if_neg h, toDigitsCore_shift, valOfDigits_append_singleton,
          ih (n / 10) hrec, digitVal_digitChar (n % 10) (Nat.mod_lt _ (by norm_num))]
      omega

theorem repr_data (n : Nat) : (Nat.repr n).data = Nat.toDigits 10 n := rfl

theorem repr_val (n : Nat) : valOfDigits (Nat.repr n).data = n := by
  rw [repr_data]
  exact toDigitsCore_val (n + 1) n (Nat.lt_succ_self n)

theorem repr_inj {a b : Nat} (h : Nat.repr a = Nat.repr b) : a = b := by
  have ha := repr_val a
  rw [h, repr_val] at ha
  omega

theorem repr_digits (n : Nat) : ∀ c ∈ (Nat.repr n).data, c.isDigit = true := by
  rw [repr_data]
  exact toDigitsCore_digits (n + 1) n [] (by simp)

theorem underscore_not_mem_repr (n : Nat) : Char.ofNat 95 ∉ (Nat.repr n).data := by
  intro hm
  have := repr_digits n _ hm
  simp [Char.isDigit] at this

theorem no_sep_split (sep : Char) :
    ∀ (l1 l2 t1 t2 : List Char), sep ∉ l1 → sep ∉ l2 →
    l1 ++ sep :: t1 = l2 ++ sep :: t2 → l1 = l2 ∧ t1 = t2 := by
  intro l1
  induction l1 with
  | nil =>
    intro l2 t1 t2 _ h2 he
    cases l2 with
    | nil => simpa using he
    | cons d l2t =>
      simp only [List.nil_append, List.cons_append, List.cons.injEq] at he
      exact absurd (he.1 ▸ List.mem_cons_self d l2t) (by simpa [he.1] using h2)
  | cons a l1t ih =>
    intro l2 t1 t2 h1 h2 he
    cases l2 with
    | nil =>
      simp only [List.cons_append, List.nil_append, List.cons.injEq] at he
      exact absurd (he.1 ▸ List.mem_cons_self a l1t) (by simpa [he.1] using h1)
    | cons d l2t =>
      simp only [List.cons_append, List.cons.injEq] at he
      have hr := ih l2t t1 t2 (fun hm => h1 (List.mem_cons_of_mem a hm))
        (fun hm => h2 (he.1 ▸ List.mem_cons_of_mem a hm)) he.2
      exact ⟨by rw [he.1, hr.1], hr.2⟩

theorem keyPre_app_inj (a b : Nat) (s1 s2 : String) :
    keyPre a ++ s1 = keyPre b ++ s2 ↔ a = b ∧ s1 = s2 := by
  constructor
  · intro h
    have hd := congrArg String.data h
    simp only [keyPre, String.data_append] at hd
    have hd2 : (Nat.repr a).data ++ ("_" ++ s1).data
        = (Nat.repr b).data ++ ("_" ++ s2).data := by
      apply @List.append_cancel_left Char ("nagare_" : String).data
        ((Nat.repr a).data ++ ("_" ++ s1).data)
        ((Nat.repr b).data ++ ("_" ++ s2).data)
      simpa [String.data_append] using hd
    have hus : ("_" ++ s1).data = Char.ofNat 95 :: s1.data := rfl
    have hus2 : ("_" ++ s2).data = Char.ofNat 95 :: s2.data := rfl
    rw [hus, hus2] at hd2
    have hsplit := no_sep_split (Char.ofNat 95) (Nat.repr a).data (Nat.repr b).data
      s1.data s2.data (underscore_not_mem_repr a) (underscore_not_mem_repr b) hd2
    refine ⟨repr_inj ?_, ?_⟩
    · apply String.ext
      exact hsplit.1
    · apply String.ext
      exact hsplit.2
  · rintro ⟨rfl, rfl⟩
    rfl

theorem zpad5_data (n : Nat) : (zpad5 n).data
    = List.replicate (5 - (Nat.repr n).length) '0' ++ (Nat.repr n).data := by
  simp [zpad5, String.data_append]

theorem foldl_val_replicate_zero (k : Nat) :
    List.foldl (fun a c => a * 10 + digitVal c) 0 (List.replicate k '0') = 0 := by
  induction k with
  | zero => rfl
  | succ m ih => simpa [List.replicate_succ, digitVal] using ih

theorem zpad5_val (n : Nat) : valOfDigits (zpad5 n).data = n := by
  rw [zpad5_data, valOfDigits, List.foldl_append, foldl_val_replicate_zero]
  exact repr_val n

theorem zpad5_inj (a b : Nat) : zpad5 a = zpad5 b ↔ a = b := by
  constructor
  · intro h
    have ha := zpad5_val a
    rw [h, zpad5_val] at ha
    omega
  · rintro rfl; rfl

theorem zpad5_digits (n : Nat) : ∀ c ∈ (zpad5 n).data, c.isDigit = true := by
  rw [zpad5_data]
  intro c hc
  rcases List.mem_append.mp hc with h | h
  · rw [List.eq_of_mem_replicate h]; decide
  · exact repr_digits n c h

theorem zpad5_ne_state (n : Nat) : zpad5 n ≠ "state" := by
  intro h
  have hm : 't' ∈ (zpad5 n).data := by rw [h]; decide
  have := zpad5_digits n 't' hm
  simp at this

theorem zpad5_ne_sess (n : Nat) : zpad5 n ≠ "sess" := by
  intro h
  have hm : 'e' ∈ (zpad5 n).data := by rw [h]; decide
  have := zpad5_digits n 'e' hm
  simp at this

theorem counterKey_inj (a b : Nat) : counterKey a = counterKey b ↔ a = b := by
  simp [counterKey, keyPre_app_inj]

theorem sessKey_inj (a b : Nat) : sessKey a = sessKey b ↔ a = b := by
  simp [sessKey, keyPre_app_inj]

theorem stateKey_inj (a j b k : Nat) :
    stateKey a j = stateKey b k ↔ a = b ∧ j = k := by
  simp [stateKey, keyPre_app_inj, zpad5_inj]

theorem counterKey_ne_sessKey (a b : Nat) : counterKey a ≠ sessKey b := by
  intro h
  have := (keyPre_app_inj a b "state" "sess").mp h
  exact absurd this.2 (by decide)

theorem counterKey_ne_stateKey (a b k : Nat) : counterKey a ≠ stateKey b k := by
  intro h
  have := (keyPre_app_inj a b "state" (zpad5 k)).mp h
  exact absurd this.2.symm (zpad5_ne_state k)

theorem sessKey_ne_stateKey (a b k : Nat) : sessKey a ≠ stateKey b k := by
  intro h
  have := (keyPre_app_inj a b "sess" (zpad5 k)).mp h
  exact absurd this.2.symm (zpad5_ne_sess k)

theorem zpad5_beq_state (n : Nat) : (zpad5 n == "state") = false := by
  rw [beq_eq_false_iff_ne]
  exact zpad5_ne_state n

theorem zpad5_beq_sess (n : Nat) : (zpad5 n == "sess") = false := by
  rw [beq_eq_false_iff_ne]
  exact zpad5_ne_sess n

theorem fetch_found (s : Sessions) (sid stid : Nat) (c : Cache) (last : Value)
    (v tok : String) (sd : Option String) (st : Value)
    (hc : c (counterKey sid) = some last)
    (hs : c (sessKey sid) = some (Value.sess v tok sd))
    (hst : c (stateKey sid stid) = some st) :
    _fetch s sid stid c =
      (if v ≠ s.version then Except.error Err.expirationError
       else Except.ok (last, tok, sd, st), c) := by
  simp only [counterKey] at hc
  simp only [sessKey] at hs
  simp only [stateKey] at hst
  simp [_fetch, get_multi, hc, hs, hst, List.lookup,
        zpad5_beq_state, zpad5_beq_sess]
  split <;> rfl

theorem fetch_missing (s : Sessions) (sid stid : Nat) (c : Cache)
    (h : c (counterKey sid) = none ∨ c (sessKey sid) = none ∨
         c (stateKey sid stid) = none) :
    _fetch s sid stid c = (Except.error Err.expirationError, c) := by
  simp only [counterKey, sessKey, stateKey] at h
  rcases h1 : c (keyPre sid ++ "state") with _ | v1 <;>
  rcases h2 : c (keyPre sid ++ "sess") with _ | v2 <;>
  rcases h3 : c (keyPre sid ++ zpad5 stid) with _ | v3 <;>
  simp [h1, h2, h3] at h <;>
  simp [_fetch, get_multi, h1, h2, h3]

theorem setC_same (c : Cache) (k : String) (v : Value) : setC c k v k = some v := by
  simp [setC]

theorem setC_other (c : Cache) (k : String) (v : Value) (q : String) (h : q ≠ k) :
    setC c k v q = c q := by
  simp [setC, h]

theorem zpad5_zero : zpad5 0 = "00000" := rfl

/-- C9: _fetch returns the cache exactly as it received it, on every
path: success, missing keys and version mismatch alike; no expired
marker or any other value is written back. -/
theorem fetch_never_mutates_cache (s : Sessions) (sid stid : Nat) (c : Cache) :
    (_fetch s sid stid c).2 = c := by
  rcases h1 : c (keyPre sid ++ "state") with _ | v1 <;>
  rcases h2 : c (keyPre sid ++ "sess") with _ | v2 <;>
  rcases h3 : c (keyPre sid ++ zpad5 stid) with _ | v3 <;>
  (try cases v2) <;>
  simp [_fetch, get_multi, h1, h2, h3, zpad5_beq_state, zpad5_beq_sess,
        List.lookup] <;>
  (try split) <;> rfl

/-- C3: a create whose initial multi-key write is acknowledged returns
(session_id, 0, secure_id), and an immediate fetch of state 0 on the
resulting cache succeeds with latest state id 0, the same secure token,
and empty session and state data. -/
theorem create_then_fetch_roundtrip (s : Sessions) (sid : Nat) (secure : String)
    (c c2 : Cache) (out : Nat × Nat × String)
    (h : _create s sid secure false c = (Except.ok out, c2)) :
    out = (sid, 0, secure) ∧
    (_fetch s sid 0 c2).1 =
      Except.ok (Value.counter 0, secure, none, Value.blob "") := by
  simp only [_create, set_multi, if_false, Bool.false_eq_true, if_neg,
    List.foldl_cons, List.foldl_nil, Prod.mk.injEq, Except.ok.injEq] at h
  obtain ⟨hout, hc2⟩ := h
  have hcnt : c2 (counterKey sid) = some (Value.counter 0) := by
    rw [← hc2]
    simp [setC, counterKey, keyPre_app_inj]
  have hsess : c2 (sessKey sid) = some (Value.sess s.version secure none) := by
    rw [← hc2]
    simp [setC, sessKey, keyPre_app_inj]
  have hst : c2 (stateKey sid 0) = some (Value.blob "") := by
    rw [← hc2]
    simp [setC, stateKey, keyPre_app_inj, zpad5_zero]
  rw [fetch_found s sid 0 c2 (Value.counter 0) s.version secure none
    (Value.blob "") hcnt hsess hst]
  simp [hout.symm]

/-- C3 witness: a concrete create followed by a fetch of state 0. -/
theorem create_then_fetch_roundtrip_witness :
    (_create sampleSessions 7 "tok" false emptyCache).1 = Except.ok (7, 0, "tok")
    ∧ (_fetch sampleSessions 7 0
        (_create sampleSessions 7 "tok" false emptyCache).2).1 =
      Except.ok (Value.counter 0, "tok", none, Value.blob "") := by
  have h := create_then_fetch_roundtrip sampleSessions 7 "tok" emptyCache
    (_create sampleSessions 7 "tok" false emptyCache).2 (7, 0, "tok") (by rfl)
  exact ⟨by rfl, h.2⟩

/-- C2: on a cache whose session tuple entry (when present) is a well
formed triple, _fetch raises ExpirationError exactly when one of the
three keys is absent or the stamped version differs from the current
one; when all three keys are present and the stamp matches, it returns
the latest counter value, the secure token, the session data and the
state data, never partial data. -/
theorem fetch_coherence_spec (s : Sessions) (sid stid : Nat) (c : Cache)
    (hwf : c (sessKey sid) = none ∨
           ∃ v tok sd, c (sessKey sid) = some (Value.sess v tok sd)) :
    ((_fetch s sid stid c).1 = Except.error Err.expirationError ↔
      (c (counterKey sid) = none ∨ c (sessKey sid) = none ∨
       c (stateKey sid stid) = none ∨
       ∃ v tok sd, c (sessKey sid) = some (Value.sess v tok sd) ∧
         v ≠ s.version))
    ∧ (∀ last v tok sd st,
        c (counterKey sid) = some last →
        c (sessKey sid) = some (Value.sess v tok sd) →
        c (stateKey sid stid) = some st →
        v = s.version →
        (_fetch s sid stid c).1 = Except.ok (last, tok, sd, st)) := by
  constructor
  · constructor
    · intro herr
      by_cases h1 : c (counterKey sid) = none
      · exact Or.inl h1
      by_cases h3 : c (stateKey sid stid) = none
      · exact Or.inr (Or.inr (Or.inl h3))
      rcases hwf with h2 | ⟨v, tok, sd, h2⟩
      · exact Or.inr (Or.inl h2)
      rcases Option.ne_none_iff_exists.mp h1 with ⟨last, hlast⟩
      rcases Option.ne_none_iff_exists.mp h3 with ⟨st, hst⟩
      rw [fetch_found s sid stid c last v tok sd st hlast.symm h2 hst.symm]
        at herr
      by_cases hv : v = s.version
      · simp [hv] at herr
      · exact Or.inr (Or.inr (Or.inr ⟨v, tok, sd, h2, hv⟩))
    · intro hdisj
      rcases hdisj with h | h | h | ⟨v, tok, sd, h2, hv⟩
      · rw [fetch_missing s sid stid c (Or.inl h)]
      · rw [fetch_missing s sid stid c (Or.inr (Or.inl h))]
      · rw [fetch_missing s sid stid c (Or.inr (Or.inr h))]
      · by_cases h1 : c (counterKey sid) = none
        · rw [fetch_missing s sid stid c (Or.inl h1)]
        by_cases h3 : c (stateKey sid stid) = none
        · rw [fetch_missing s sid stid c (Or.inr (Or.inr h3))]
        rcases Option.ne_none_iff_exists.mp h1 with ⟨last, hlast⟩
        rcases Option.ne_none_iff_exists.mp h3 with ⟨st, hst⟩
        rw [fetch_found s sid stid c last v tok sd st hlast.symm h2 hst.symm]
        simp [hv]
  · intro last v tok sd st hc hs hst hv
    rw [fetch_found s sid stid c last v tok sd st hc hs hst]
    simp [hv]

/-- C2 witness: on the empty cache a fetch raises ExpirationError. -/
theorem fetch_coherence_spec_witness :
    (_fetch sampleSessions 1 0 emptyCache).1 =
      Except.error Err.expirationError :=
  (fetch_coherence_spec sampleSessions 1 0 emptyCache (Or.inl rfl)).1.mpr
    (Or.inl rfl)

theorem state_ne_zpad5 (n : Nat) : ("state" : String) ≠ zpad5 n :=
  fun h => zpad5_ne_state n h.symm

theorem sess_ne_zpad5 (n : Nat) : ("sess" : String) ≠ zpad5 n :=
  fun h => zpad5_ne_sess n h.symm

theorem store_ok (s : Sessions) (sid stid : Nat) (tok : String)
    (sd : Option String) (st : String) (c : Cache) (n : Nat)
    (hc : c (counterKey sid) = some (Value.counter n)) :
    _store s sid stid tok false sd st false c =
      (Except.ok (),
       setC (setC (setC c (counterKey sid) (Value.counter (n + 1)))
         (sessKey sid) (Value.sess s.version tok sd))
         (stateKey sid stid) (Value.blob st)) := by
  simp only [counterKey] at hc
  simp [_store, mc_incr, hc, store_write, set_multi, counterKey, sessKey,
        stateKey]

/-- C4: after an acknowledged create of session sid, an acknowledged
store of state 1 with data A and an acknowledged store of state 2 with
data B (both with use_same_state false), fetching state 1 still returns
data A with latest state id 2, and fetching state 2 returns data B with
latest state id 2: older snapshots coexist with newer ones. -/
theorem snapshot_history_scenario (s : Sessions) (sid : Nat) (tok : String)
    (sd1 sd2 : Option String) (c c1 c2 c3 : Cache) (out : Nat × Nat × String)
    (h1 : _create s sid tok false c = (Except.ok out, c1))
    (h2 : _store s sid 1 tok false sd1 "A" false c1 = (Except.ok (), c2))
    (h3 : _store s sid 2 tok false sd2 "B" false c2 = (Except.ok (), c3)) :
    (_fetch s sid 1 c3).1 =
      Except.ok (Value.counter 2, tok, sd2, Value.blob "A")
    ∧ (_fetch s sid 2 c3).1 =
      Except.ok (Value.counter 2, tok, sd2, Value.blob "B") := by
  simp only [_create, set_multi, if_false, Bool.false_eq_true, if_neg,
    List.foldl_cons, List.foldl_nil, Prod.mk.injEq, Except.ok.injEq] at h1
  obtain ⟨-, hc1⟩ := h1
  have hcnt1 : c1 (counterKey sid) = some (Value.counter 0) := by
    rw [← hc1]
    simp [setC, counterKey, keyPre_app_inj]
  rw [store_ok s sid 1 tok sd1 "A" c1 0 hcnt1, Prod.mk.injEq] at h2
  obtain ⟨-, hc2⟩ := h2
  have hcnt2 : c2 (counterKey sid) = some (Value.counter 1) := by
    rw [← hc2]
    simp [setC, counterKey, sessKey, stateKey, keyPre_app_inj,
          state_ne_zpad5]
  rw [store_ok s sid 2 tok sd2 "B" c2 1 hcnt2, Prod.mk.injEq] at h3
  obtain ⟨-, hc3⟩ := h3
  have hcnt3 : c3 (counterKey sid) = some (Value.counter 2) := by
    rw [← hc3]
    simp [setC, counterKey, sessKey, stateKey, keyPre_app_inj,
          state_ne_zpad5]
  have hsess3 : c3 (sessKey sid) = some (Value.sess s.version tok sd2) := by
    rw [← hc3]
    simp [setC, counterKey, sessKey, stateKey, keyPre_app_inj,
          sess_ne_zpad5]
  have hst1 : c3 (stateKey sid 1) = some (Value.blob "A") := by
    rw [← hc3, ← hc2]
    simp [setC, counterKey, sessKey, stateKey, keyPre_app_inj, zpad5_inj,
          zpad5_ne_state, zpad5_ne_sess]
  have hst2 : c3 (stateKey sid 2) = some (Value.blob "B") := by
    rw [← hc3]
    simp [setC, stateKey, keyPre_app_inj]
  constructor
  · rw [fetch_found s sid 1 c3 (Value.counter 2) s.version tok sd2
      (Value.blob "A") hcnt3 hsess3 hst1]
    simp
  · rw [fetch_found s sid 2 c3 (Value.counter 2) s.version tok sd2
      (Value.blob "B") hcnt3 hsess3 hst2]
    simp

/-- C4 witness: the concrete scenario on session 1 from the empty
cache. -/
theorem snapshot_history_scenario_witness :
    (_fetch sampleSessions 1 1
      (_store sampleSessions 1 2 "tok" false none "B" false
        (_store sampleSessions 1 1 "tok" false none "A" false
          (_create sampleSessions 1 "tok" false emptyCache).2).2).2).1 =
      Except.ok (Value.counter 2, "tok", none, Value.blob "A")
    ∧ (_fetch sampleSessions 1 2
      (_store sampleSessions 1 2 "tok" false none "B" false
        (_store sampleSessions 1 1 "tok" false none "A" false
          (_create sampleSessions 1 "tok" false emptyCache).2).2).2).1 =
      Except.ok (Value.counter 2, "tok", none, Value.blob "B") := by
  exact snapshot_history_scenario sampleSessions 1 "tok" none none
    emptyCache
    (_create sampleSessions 1 "tok" false emptyCache).2
    (_store sampleSessions 1 1 "tok" false none "A" false
      (_create sampleSessions 1 "tok" false emptyCache).2).2
    (_store sampleSessions 1 2 "tok" false none "B" false
      (_store sampleSessions 1 1 "tok" false none "A" false
        (_create sampleSessions 1 "tok" false emptyCache).2).2).2
    (1, 0, "tok") (by rfl) (by rfl) (by rfl)

/-- C1 counterexample: on a cache where the counter of session 1 stands
at 5, a store of state_id 3 (use_same_state false) succeeds without
raising, the counter is atomically advanced to 6, but the state data is
written under the key derived from the passed state_id 3, not under the
key derived from the new counter value 6, which stays empty: the new
counter value does not become the state id under which the just-written
state data is stored. -/
theorem store_counter_key_mismatch_cex :
    (_store sampleSessions 1 3 "tok" false none "D" false cacheCounter5).1
      = Except.ok ()
    ∧ (_store sampleSessions 1 3 "tok" false none "D" false cacheCounter5).2
        (counterKey 1) = some (Value.counter 6)
    ∧ (_store sampleSessions 1 3 "tok" false none "D" false cacheCounter5).2
        (stateKey 1 6) = none
    ∧ (_store sampleSessions 1 3 "tok" false none "D" false cacheCounter5).2
        (stateKey 1 3) = some (Value.blob "D") :=
  ⟨rfl, rfl, rfl, rfl⟩

/-- C1 (amended): a store with use_same_state false first atomically
advances the per-session counter, and writes the state snapshot under
the key derived from the state_id argument; when the counter before the
call equals state_id - 1 (as the protocol arranges under the session
lock), the new counter value equals the state_id under which the
just-written data is stored. -/
theorem store_advances_counter_then_writes (s : Sessions) (sid stid : Nat)
    (tok : String) (sd : Option String) (st : String) (c : Cache)
    (hc : c (counterKey sid) = some (Value.counter (stid - 1)))
    (hpos : 1 ≤ stid) :
    ∃ c2, _store s sid stid tok false sd st false c = (Except.ok (), c2)
      ∧ c2 (counterKey sid) = some (Value.counter stid)
      ∧ c2 (stateKey sid stid) = some (Value.blob st)
      ∧ c2 (sessKey sid) = some (Value.sess s.version tok sd) := by
  have hs1 : stid - 1 + 1 = stid := by omega
  have heq := store_ok s sid stid tok sd st c (stid - 1) hc
  rw [hs1] at heq
  refine ⟨_, heq, ?_, ?_, ?_⟩
  · simp [setC, counterKey, sessKey, stateKey, keyPre_app_inj,
          state_ne_zpad5]
  · simp [setC, stateKey, keyPre_app_inj]
  · simp [setC, sessKey, stateKey, keyPre_app_inj, sess_ne_zpad5]

/-- C1 amended witness: a concrete store of state 1 on a counter at 0. -/
theorem store_advances_counter_then_writes_witness :
    ∃ c2, _store sampleSessions 1 1 "tok" false none "D" false cacheCounter0
        = (Except.ok (), c2)
      ∧ c2 (counterKey 1) = some (Value.counter 1)
      ∧ c2 (stateKey 1 1) = some (Value.blob "D")
      ∧ c2 (sessKey 1) = some (Value.sess "" "tok" none) :=
  store_advances_counter_then_writes sampleSessions 1 1 "tok" none "D"
    cacheCounter0 (by rfl) (by decide)

/-- C6: when the atomic increment of the counter key returns the null
failure in a store with use_same_state false, then with noreply false
the call raises StorageError before the multi-key data write, while
with noreply true no StorageError is raised for the failed increment
and the call proceeds to the data write stage. -/
theorem store_incr_failure_noreply (s : Sessions) (sid stid : Nat)
    (tok : String) (sd : Option String) (st : String) (failSet : Bool)
    (c : Cache)
    (hincr : (mc_incr c (counterKey sid) s.noreply).1 = none) :
    (s.noreply = false →
      _store s sid stid tok false sd st failSet c =
        (Except.error Err.storageError, c))
    ∧ (s.noreply = true →
      _store s sid stid tok false sd st failSet c =
        store_write s sid stid tok sd st failSet c) := by
  have hm : mc_incr c (keyPre sid ++ "state") s.noreply = (none, c) := by
    simp only [counterKey] at hincr
    unfold mc_incr at hincr ⊢
    rcases hk : c (keyPre sid ++ "state") with _ | v
    · simp
    · rw [hk] at hincr
      cases v <;> simp_all
  constructor
  · intro hnr
    rw [hnr] at hm
    simp [_store, hm, hnr]
  · intro hnr
    rw [hnr] at hm
    simp [_store, hm, hnr]

/-- C6 witness: a concrete failed increment (empty cache, counter key
absent) under both noreply settings. -/
theorem store_incr_failure_noreply_witness :
    _store sampleSessions 1 1 "tok" false none "D" false emptyCache
      = (Except.error Err.storageError, emptyCache)
    ∧ _store noreplySessions 1 1 "tok" false none "D" false emptyCache
      = store_write noreplySessions 1 1 "tok" none "D" false emptyCache :=
  ⟨(store_incr_failure_noreply sampleSessions 1 1 "tok" none "D" false
      emptyCache (by rfl)).1 rfl,
   (store_incr_failure_noreply noreplySessions 1 1 "tok" none "D" false
      emptyCache (by rfl)).2 rfl⟩

theorem create_ok_eq (s : Sessions) (sid : Nat) (sec : String) (c : Cache) :
    _create s sid sec false c =
      (Except.ok (sid, 0, sec),
       setC (setC (setC c (counterKey sid) (Value.counter 0))
         (sessKey sid) (Value.sess s.version sec none))
         (keyPre sid ++ "00000") (Value.blob "")) := by
  simp [_create, set_multi, counterKey, sessKey]

theorem create_fetch_aux (s : Sessions) (sid : Nat) (sec : String)
    (c : Cache) :
    ∃ c2, _create s sid sec false c = (Except.ok (sid, 0, sec), c2)
      ∧ (_fetch s sid 0 c2).1 =
        Except.ok (Value.counter 0, sec, none, Value.blob "") := by
  refine ⟨_, create_ok_eq s sid sec c, ?_⟩
  have hcnt : (setC (setC (setC c (counterKey sid) (Value.counter 0))
      (sessKey sid) (Value.sess s.version sec none))
      (keyPre sid ++ "00000") (Value.blob "")) (counterKey sid)
      = some (Value.counter 0) := by
    simp [setC, counterKey, sessKey, keyPre_app_inj]
  have hsess : (setC (setC (setC c (counterKey sid) (Value.counter 0))
      (sessKey sid) (Value.sess s.version sec none))
      (keyPre sid ++ "00000") (Value.blob "")) (sessKey sid)
      = some (Value.sess s.version sec none) := by
    simp [setC, sessKey, keyPre_app_inj]
  have hst : (setC (setC (setC c (counterKey sid) (Value.counter 0))
      (sessKey sid) (Value.sess s.version sec none))
      (keyPre sid ++ "00000") (Value.blob "")) (stateKey sid 0)
      = some (Value.blob "") := by
    simp [setC, stateKey, keyPre_app_inj, zpad5_zero]
  rw [fetch_found s sid 0 _ (Value.counter 0) s.version sec none
    (Value.blob "") hcnt hsess hst]
  simp

theorem create_writes_stamp (s : Sessions) (sid : Nat) (sec : String)
    (c c4 : Cache) (out : Nat × Nat × String)
    (h : _create s sid sec false c = (Except.ok out, c4)) :
    c4 (sessKey sid) = some (Value.sess s.version sec none) := by
  rw [create_ok_eq s sid sec c, Prod.mk.injEq] at h
  rw [← h.2]
  simp [setC, sessKey, keyPre_app_inj]

theorem store_writes_stamp (s : Sessions) (sid stid n : Nat) (tok : String)
    (sd : Option String) (st : String) (c c4 : Cache)
    (hc : c (counterKey sid) = some (Value.counter n))
    (h : _store s sid stid tok false sd st false c = (Except.ok (), c4)) :
    c4 (sessKey sid) = some (Value.sess s.version tok sd) := by
  rw [store_ok s sid stid tok sd st c n hc, Prod.mk.injEq] at h
  rw [← h.2]
  simp [setC, sessKey, stateKey, keyPre_app_inj, sess_ne_zpad5]

/-- C7: delete issues one client delete, of the session tuple key only;
it raises StorageError exactly when that delete is not acknowledged; on
success the resulting cache is the old one minus that single key, so
the counter key and every state snapshot key of the session, and every
key of every other session, are unchanged. -/
theorem delete_removes_only_session_tuple (s : Sessions) (sid : Nat)
    (failDel : Bool) (c : Cache) :
    ((delete s sid failDel c).1 = Except.error Err.storageError ↔
      failDel = true)
    ∧ (failDel = true → (delete s sid failDel c).2 = c)
    ∧ (failDel = false →
        delete s sid failDel c = (Except.ok (), delC c (sessKey sid))
        ∧ (delete s sid failDel c).2 (sessKey sid) = none)
    ∧ (delete s sid failDel c).2 (counterKey sid) = c (counterKey sid)
    ∧ (∀ k, (delete s sid failDel c).2 (stateKey sid k) = c (stateKey sid k))
    ∧ (∀ sid2, sid2 ≠ sid →
        (delete s sid failDel c).2 (counterKey sid2) = c (counterKey sid2)
        ∧ (delete s sid failDel c).2 (sessKey sid2) = c (sessKey sid2)
        ∧ ∀ k, (delete s sid failDel c).2 (stateKey sid2 k)
            = c (stateKey sid2 k)) := by
  cases failDel
  · have hd : delete s sid false c
        = (Except.ok (), delC c (keyPre sid ++ "sess")) := rfl
    refine ⟨?_, ?_, ?_, ?_, ?_, ?_⟩
    · rw [hd]; simp
    · intro h; exact absurd h (by simp)
    · intro _
      exact ⟨by rw [hd]; rfl, by rw [hd]; simp [delC, sessKey]⟩
    · rw [hd]; simp [delC, counterKey, sessKey, keyPre_app_inj]
    · intro k; rw [hd]
      simp [delC, stateKey, sessKey, keyPre_app_inj, zpad5_ne_sess]
    · intro sid2 hne
      refine ⟨?_, ?_, ?_⟩
      · rw [hd]; simp [delC, counterKey, sessKey, keyPre_app_inj]
      · rw [hd]; simp [delC, sessKey, keyPre_app_inj, hne]
      · intro k; rw [hd]
        simp [delC, stateKey, sessKey, keyPre_app_inj, zpad5_ne_sess]
  · have hd : delete s sid true c = (Except.error Err.storageError, c) := rfl
    refine ⟨?_, ?_, ?_, ?_, ?_, ?_⟩
    · rw [hd]; simp
    · intro _; rw [hd]
    · intro h; exact absurd h (by simp)
    · rw [hd]
    · intro k; rw [hd]
    · intro sid2 _
      exact ⟨by rw [hd], by rw [hd], fun k => by rw [hd]⟩

/-- C7 witness: a concrete acknowledged delete of session 1 leaves its
counter key intact and removes the session tuple key. -/
theorem delete_removes_only_session_tuple_witness :
    (delete sampleSessions 1 false cacheCounter5).2 (sessKey 1) = none
    ∧ (delete sampleSessions 1 false cacheCounter5).2 (counterKey 1)
        = some (Value.counter 5) := by
  have h := delete_removes_only_session_tuple sampleSessions 1 false
    cacheCounter5
  refine ⟨(h.2.2.1 rfl).2, ?_⟩
  rw [h.2.2.2.1]
  rfl

/-- C5: under the invalidate policy with no configured seed, a reload
recomputes the stamp from a fresh unique id and leaves the cache
untouched; whenever the recomputed epoch differs from the previous one,
every fetch of a session whose tuple is stamped with the previous epoch
fails with ExpirationError even though all three keys are physically
present, while a create followed by a fetch after the reload succeeds. -/
theorem reload_invalidate_expires_old_sessions (md5hex : String → String)
    (genId : Nat) (s : Sessions) (c : Cache)
    (hmode : s.reset_on_reload = "invalidate")
    (hseed : s.seedVersion = "")
    (hchanged : (handle_reload md5hex genId s c).1.version ≠ s.version) :
    (handle_reload md5hex genId s c).1.version
      = (md5hex (generate_version genId)).take 16
    ∧ (handle_reload md5hex genId s c).2 = c
    ∧ (∀ sid stid last tok sd st,
        c (counterKey sid) = some last →
        c (sessKey sid) = some (Value.sess s.version tok sd) →
        c (stateKey sid stid) = some st →
        (_fetch (handle_reload md5hex genId s c).1 sid stid c).1 =
          Except.error Err.expirationError)
    ∧ (∀ sid tok, ∃ c3,
        _create (handle_reload md5hex genId s c).1 sid tok false c
          = (Except.ok (sid, 0, tok), c3)
        ∧ (_fetch (handle_reload md5hex genId s c).1 sid 0 c3).1 =
          Except.ok (Value.counter 0, tok, none, Value.blob "")) := by
  refine ⟨by simp [handle_reload, hmode, hseed], ?_, ?_, ?_⟩
  · simp [handle_reload, hmode]
  · intro sid stid last tok sd st h1 h2 h3
    rw [fetch_found (handle_reload md5hex genId s c).1 sid stid c last
      s.version tok sd st h1 h2 h3]
    simp [Ne.symm hchanged]
  · intro sid tok
    exact create_fetch_aux (handle_reload md5hex genId s c).1 sid tok c

/-- C5 witness: a concrete reload whose fresh stamp differs from the
old one expires a concretely stored session. -/
theorem reload_invalidate_expires_old_sessions_witness :
    (_fetch (handle_reload (fun _ => "newversion123456") 42
        invalidateSessions cacheOldStamp).1 1 0 cacheOldStamp).1 =
      Except.error Err.expirationError := by
  exact (reload_invalidate_expires_old_sessions (fun _ => "newversion123456")
    42 invalidateSessions cacheOldStamp rfl rfl (by decide)).2.2.1
    1 0 (Value.counter 0) "tok" none (Value.blob "") (by rfl) (by rfl)
    (by rfl)

/-- C8: under the on or invalidate policy the stamp computed at
construction (which runs handle_reload once) is the 16 character
truncation of the md5 hexdigest of the configured seed, or of the fresh
unique id when no seed is configured; the on value is identified with
invalidate at construction and yields exactly the same state; every
later reload recomputes the stamp by the same formula, so with a fixed
configured seed the stamp is the same after every reload. -/
theorem reload_version_fingerprint (md5hex : String → String) (genId : Nat)
    (ron ver : String) (ttl : Nat) (nr : Bool) (c : Cache)
    (hron : ron = "on" ∨ ron = "invalidate") :
    (initSessions md5hex genId ron ver ttl nr c).1.version
      = (md5hex (if ver ≠ "" then ver else generate_version genId)).take 16
    ∧ initSessions md5hex genId "on" ver ttl nr c
        = initSessions md5hex genId "invalidate" ver ttl nr c
    ∧ (∀ genId2,
        (handle_reload md5hex genId2
          (initSessions md5hex genId ron ver ttl nr c).1
          (initSessions md5hex genId ron ver ttl nr c).2).1.version
        = (md5hex (if ver ≠ "" then ver
                   else generate_version genId2)).take 16)
    ∧ (ver ≠ "" → ∀ genId2,
        (handle_reload md5hex genId2
          (initSessions md5hex genId ron ver ttl nr c).1
          (initSessions md5hex genId ron ver ttl nr c).2).1.version
        = (initSessions md5hex genId ron ver ttl nr c).1.version) := by
  have hsame : initSessions md5hex genId "on" ver ttl nr c
      = initSessions md5hex genId "invalidate" ver ttl nr c := rfl
  rcases hron with rfl | rfl
  · refine ⟨by simp [initSessions, handle_reload], hsame, ?_, ?_⟩
    · intro genId2
      simp [initSessions, handle_reload]
    · intro hver genId2
      simp [initSessions, handle_reload, hver]
  · refine ⟨by simp [initSessions, handle_reload], hsame, ?_, ?_⟩
    · intro genId2
      simp [initSessions, handle_reload]
    · intro hver genId2
      simp [initSessions, handle_reload, hver]

/-- C8 witness: a concrete construction under the on policy with a
fixed seed. -/
theorem reload_version_fingerprint_witness :
    (initSessions (fun q => q ++ "0123456789abcdef") 42 "on" "seed" 0 false
      emptyCache).1.version
    = ((fun q => q ++ "0123456789abcdef")
        (if ("seed" : String) ≠ "" then "seed"
         else generate_version 42)).take 16 := by
  exact (reload_version_fingerprint (fun q => q ++ "0123456789abcdef") 42
    "on" "seed" 0 false emptyCache (Or.inl rfl)).1

/-- C10: under the off or flush policies the stamp is the configured
version string and no reload ever changes it; session tuples written by
create and store are stamped with that constant, and a fetch of data so
stamped is never rejected by the version check; under flush the
construction-time reload empties the cache, so invalidation comes from
deletion alone, not from the stamp. -/
theorem off_flush_constant_version (md5hex : String → String) (genId : Nat)
    (ron ver : String) (ttl : Nat) (nr : Bool) (c : Cache)
    (hron : ron = "off" ∨ ron = "flush") :
    (initSessions md5hex genId ron ver ttl nr c).1.version = ver
    ∧ (∀ md5hex2 genId2 c3,
        (handle_reload md5hex2 genId2
          (initSessions md5hex genId ron ver ttl nr c).1 c3).1.version = ver)
    ∧ (ron = "flush" →
        (initSessions md5hex genId ron ver ttl nr c).2 = emptyCache)
    ∧ (∀ sid sec c3 c4 out,
        _create (initSessions md5hex genId ron ver ttl nr c).1 sid sec false
          c3 = (Except.ok out, c4) →
        c4 (sessKey sid) = some (Value.sess ver sec none))
    ∧ (∀ sid stid n tok sd st c3 c4,
        c3 (counterKey sid) = some (Value.counter n) →
        _store (initSessions md5hex genId ron ver ttl nr c).1 sid stid tok
          false sd st false c3 = (Except.ok (), c4) →
        c4 (sessKey sid) = some (Value.sess ver tok sd))
    ∧ (∀ sid stid c3 last tok sd st,
        c3 (counterKey sid) = some last →
        c3 (sessKey sid) = some (Value.sess ver tok sd) →
        c3 (stateKey sid stid) = some st →
        (_fetch (initSessions md5hex genId ron ver ttl nr c).1 sid stid
          c3).1 = Except.ok (last, tok, sd, st)) := by
  rcases hron with rfl | rfl
  · have hv : (initSessions md5hex genId "off" ver ttl nr c).1
        = ⟨ttl, nr, "off", ver, ver⟩ := rfl
    refine ⟨by rw [hv], ?_, ?_, ?_, ?_, ?_⟩
    · intro m2 g2 c3
      rw [hv]
      simp [handle_reload]
    · intro h
      exact absurd h (by simp)
    · intro sid sec c3 c4 out h
      exact create_writes_stamp _ sid sec c3 c4 out h
    · intro sid stid n tok sd st c3 c4 hc h
      exact store_writes_stamp _ sid stid n tok sd st c3 c4 hc h
    · intro sid stid c3 last tok sd st h1 h2 h3
      rw [fetch_found _ sid stid c3 last ver tok sd st h1 h2 h3, hv]
      simp
  · have hv : (initSessions md5hex genId "flush" ver ttl nr c).1
        = ⟨ttl, nr, "flush", ver, ver⟩ := rfl
    refine ⟨by rw [hv], ?_, ?_, ?_, ?_, ?_⟩
    · intro m2 g2 c3
      rw [hv]
      simp [handle_reload]
    · intro _
      rfl
    · intro sid sec c3 c4 out h
      exact create_writes_stamp _ sid sec c3 c4 out h
    · intro sid stid n tok sd st c3 c4 hc h
      exact store_writes_stamp _ sid stid n tok sd st c3 c4 hc h
    · intro sid stid c3 last tok sd st h1 h2 h3
      rw [fetch_found _ sid stid c3 last ver tok sd st h1 h2 h3, hv]
      simp

/-- C10 witness: a concrete off configuration keeps its configured
version string. -/
theorem off_flush_constant_version_witness :
    (initSessions (fun q => q) 42 "off" "v1" 0 false emptyCache).1.version
      = "v1" := by
  exact (off_flush_constant_version (fun q => q) 42 "off" "v1" 0 false
    emptyCache (Or.inl rfl)).1
